import Mathlib

/-!
Verification of `mailbox_poll.py`, a small relay that polls an IMAP mailbox
and forwards unread plain-text bodies to a chat, with per-chat repeating
timers controlled by chat commands.  The definitions below are a shallow
embedding of the script's functions: the telegram job queue is a list of
jobs, the IMAP transport is a record of the responses the script reads, and
Python exceptions become `Option`/`Except` values.
-/

namespace MailboxPoll

/-! ## Python `int(...)` on a string

`set_timer` calls `int(context.args[0])` and `select_email_folder` calls
`int(input(...))`; both raise `ValueError` on non-numeric input.  `pyInt`
returns `none` exactly where Python's `int` raises: surrounding whitespace
is stripped, an optional sign is allowed, and the remainder must be a
non-empty digit string. -/

def digitsVal (acc : Nat) : List Char → Option Nat
  | [] => some acc
  | c :: rest => if c.isDigit then digitsVal (acc * 10 + (c.toNat - 48)) rest else none

def pyIntCore : List Char → Option Nat
  | [] => none
  | c :: rest => digitsVal 0 (c :: rest)

/-- The surrounding whitespace `int(...)` ignores. -/
def stripWS (cs : List Char) : List Char :=
  ((cs.dropWhile Char.isWhitespace).reverse.dropWhile Char.isWhitespace).reverse

def pyInt (s : String) : Option Int :=
  match stripWS s.toList with
  | '-' :: rest => (pyIntCore rest).map (fun n => -(n : Int))
  | '+' :: rest => (pyIntCore rest).map (fun n => (n : Int))
  | cs => (pyIntCore cs).map (fun n => (n : Int))

/-! ## The job queue and the timer commands

A `Job` models one entry of the telegram `JobQueue` as the script uses it:
`run_repeating(job, interval=interval, context=chat_id, name=str(chat_id))`.
`schedule_removal` on this library version removes the job from the
scheduler at once, so removal is modelled as dropping the job from the
list. -/

structure Job where
  name : String
  interval : Int
  ctx : Int
deriving DecidableEq, Repr

def get_jobs_by_name (q : List Job) (name : String) : List Job :=
  q.filter (fun j => j.name == name)

/-- `remove_job_if_exists(name, context)`: returns whether a job was
removed, together with the queue after all jobs with that name were
scheduled for removal. -/
def remove_job_if_exists (name : String) (q : List Job) : Bool × List Job :=
  if (get_jobs_by_name q name).isEmpty then (false, q)
  else (true, q.filter (fun j => !(j.name == name)))

structure CommandResult where
  reply : String
  queue : List Job
deriving DecidableEq, Repr

/-- `set_timer(job, update, context)`: parses `int(context.args[0])`
(`IndexError` on a missing argument and `ValueError` on a non-numeric one
are both caught and answered with the usage line), refuses a negative
interval before touching the queue, and otherwise replaces any job named
`str(chat_id)` with a fresh repeating job. -/
def set_timer (chat_id : Int) (args : List String) (q : List Job) : CommandResult :=
  match args with
  | [] => ⟨"Usage: /set <seconds>", q⟩
  | a :: _ =>
    match pyInt a with
    | none => ⟨"Usage: /set <seconds>", q⟩
    | some interval =>
      if interval < 0 then ⟨"Sorry we can not go back to future!", q⟩
      else
        let removed := remove_job_if_exists (toString chat_id) q
        let q2 := removed.2 ++ [⟨toString chat_id, interval, chat_id⟩]
        ⟨if removed.1 then "Timer successfully set! Old one was removed."
          else "Timer successfully set!", q2⟩

/-- `unset(update, context)`: removes the invoking chat's job if present and
reports whether anything was removed. -/
def unset (chat_id : Int) (q : List Job) : CommandResult :=
  let removed := remove_job_if_exists (toString chat_id) q
  ⟨if removed.1 then "Timer successfully cancelled!" else "You have no active timer.",
    removed.2⟩

/-! ## `imap_trace`: connection lifecycle around one scan cycle

`imap_trace(func, storage)` wraps one cycle: it opens an IMAP connection,
runs `func`, and in a `finally` block attempts `c.close()` with any
exception swallowed by a bare `except: pass`, then `c.logout()`.  Each of
the four steps may raise; an `Option String` per step is `some e` when that
step raises exception `e`.  The wrapper is modelled as the ordered trace of
steps attempted plus the exception (if any) that escapes the wrapper. -/

inductive IEv where
  | ev_open
  | ev_func
  | ev_close
  | ev_logout
deriving DecidableEq, Repr

def imap_trace (openExn funcExn closeExn logoutExn : Option String) :
    List IEv × Option String :=
  match openExn with
  | some e => ([IEv.ev_open], some e)
  | none =>
    -- `finally`: close is attempted and its exception discarded by the bare
    -- `except: pass`; logout is then attempted, and an exception it raises
    -- replaces any pending exception from `func`.
    ([IEv.ev_open, IEv.ev_func, IEv.ev_close, IEv.ev_logout],
      match logoutExn, funcExn with
      | some e, _ => some e
      | none, fe => fe)

/-! ## `scan_email`: one scan-and-forward cycle

The IMAP transport is modelled by the responses the script reads:
the status of `mail.search(None, '(UNSEEN)')`, the id list it returns on
success, and per message id the (ignored) fetch status plus the parsed MIME
walk as an ordered list of (content-type, payload) pairs.  The dict
comprehension `{part.get_content_type(): part.get_payload() for part in
walk()}` keeps the last payload for a repeated content type, and
`email_message["text/plain"]` raises `KeyError` when absent. -/

structure Mailbox where
  searchStatus : String
  searchIds : List Nat
  fetchStatus : Nat → String
  fetchParts : Nat → List (String × String)

/-- Build the content-type dictionary and look `ct` up: the value is the
payload of the last walk entry with that content type, if any. -/
def dictLookup (parts : List (String × String)) (ct : String) : Option String :=
  ((parts.filter (fun p => p.1 == ct)).getLast?).map (fun p => p.2)

structure ScanResult where
  fetched : List Nat
  sent : List String
  exn : Option String
deriving DecidableEq, Repr

/-- The `for id in ids` loop body: fetch (status bound but never checked),
parse, index `"text/plain"`, send.  A missing part raises `KeyError`, which
aborts the rest of the loop; messages already sent stay sent. -/
def scanLoop (mb : Mailbox) : List Nat → ScanResult
  | [] => ⟨[], [], none⟩
  | i :: rest =>
    let _result := mb.fetchStatus i
    match dictLookup (mb.fetchParts i) "text/plain" with
    | none => ⟨[i], [], some "KeyError: text/plain"⟩
    | some body =>
      let r := scanLoop mb rest
      ⟨i :: r.fetched, body :: r.sent, r.exn⟩

/-- `scan_email(mail, storage, context)`: on a successful search run the
loop over the returned ids; otherwise send the raw search status itself to
the chat. -/
def scan_email (mb : Mailbox) : ScanResult :=
  if mb.searchStatus == "OK" then scanLoop mb mb.searchIds
  else ⟨[], [mb.searchStatus], none⟩

/-! ## `select_email_folder`: the interactive folder prompt

`mail.list()` yields a status and raw folder lines.  On `'OK'` each line is
split on `' "/" '` and its second element keyed by its 1-based position;
the line, decoded from modified UTF-7, is printed with that number.  The
choice is `enum_folders.get(int(input(...)), 'INBOX')`: `int` raises an
uncaught `ValueError` on non-numeric input, and a missing second split
element raises an uncaught `IndexError`.  The modified UTF-7 decoder is an
external library, modelled as an abstract function. -/

instance : DecidableEq (Except String String) := fun a b =>
  match a, b with
  | Except.error x, Except.error y =>
    if h : x = y then Decidable.isTrue (h ▸ rfl)
    else Decidable.isFalse (fun hc => h (Except.error.inj hc))
  | Except.error _, Except.ok _ => Decidable.isFalse (fun hc => Except.noConfusion hc)
  | Except.ok _, Except.error _ => Decidable.isFalse (fun hc => Except.noConfusion hc)
  | Except.ok x, Except.ok y =>
    if h : x = y then Decidable.isTrue (h ▸ rfl)
    else Decidable.isFalse (fun hc => h (Except.ok.inj hc))

structure FolderSelectResult where
  printed : List String
  folder : Except String String
deriving DecidableEq, Repr

/-- Python's `f.split(' "/" ')` for the fixed IMAP delimiter separator:
left-to-right, a separator occurrence ends the current chunk. -/
def splitFolderLine : List Char → List (List Char)
  | [] => [[]]
  | ' ' :: '"' :: '/' :: '"' :: ' ' :: rest => [] :: splitFolderLine rest
  | c :: rest =>
    match splitFolderLine rest with
    | [] => [[c]]
    | chunk :: more => (c :: chunk) :: more

/-- The `for num, f in enumerate(folders, 1)` loop: returns the lines
printed so far and, unless a line fails to split (`l[1]` raises
`IndexError`), the number-to-name dictionary. -/
def folderLoop (decode : String → String) :
    Nat → List String → List String × Except String (List (Int × String))
  | _, [] => ([], Except.ok [])
  | num, f :: rest =>
    match (splitFolderLine f.toList).get? 1 with
    | none => ([], Except.error "IndexError")
    | some name =>
      let r := folderLoop decode (num + 1) rest
      ((toString num ++ ". " ++ decode f) :: r.1,
        r.2.map (fun e => ((num : Int), String.mk name) :: e))

def select_email_folder (decode : String → String) (listStatus : String)
    (folders : List String) (userInput : String) : FolderSelectResult :=
  let scanned :=
    if listStatus == "OK" then folderLoop decode 1 folders else ([], Except.ok [])
  match scanned.2 with
  | Except.error e => ⟨scanned.1, Except.error e⟩
  | Except.ok enum =>
    match pyInt userInput with
    | none => ⟨scanned.1, Except.error "ValueError"⟩
    | some n =>
      ⟨scanned.1, Except.ok ((enum.lookup n).getD "INBOX")⟩

/-! ## Concrete inputs used to instantiate the theorems -/

def jobOld : Job := ⟨"7", 3, 7⟩

def jobOther : Job := ⟨"9", 4, 9⟩

def mbC3 : Mailbox :=
  ⟨"OK", [1, 2, 3], fun _ => "OK",
    fun i =>
      if i == 1 then [("text/plain", "hello")]
      else if i == 2 then [("text/html", "x")]
      else [("text/plain", "bye")]⟩

def mbC5 : Mailbox := ⟨"NO [AUTH] failure", [1], fun _ => "OK", fun _ => []⟩

def mbC7 : Mailbox :=
  ⟨"OK", [1, 2], fun _ => "OK", fun i => [("text/plain", toString i)]⟩

def mbC9 : Mailbox :=
  ⟨"OK", [4], fun _ => "OK",
    fun _ => [("text/plain", "first"), ("text/html", "h"), ("text/plain", "second")]⟩

def mbC10a : Mailbox :=
  ⟨"OK", [1], fun _ => "OK", fun _ => [("text/plain", "body")]⟩

def mbC10b : Mailbox :=
  ⟨"OK", [1], fun _ => "NO parse error", fun _ => [("text/plain", "body")]⟩

/-! ## Helper lemmas about the scan loop -/

theorem scanLoop_missing_isSome (mb : Mailbox) (ids : List Nat) (i : Nat)
    (hi : i ∈ ids) (hm : dictLookup (mb.fetchParts i) "text/plain" = none) :
    (scanLoop mb ids).exn.isSome := by
  induction ids with
  | nil => cases hi
  | cons a rest ih =>
    rcases List.mem_cons.mp hi with h | h
    · subst h
      simp [scanLoop, hm]
    · cases hd : dictLookup (mb.fetchParts a) "text/plain" with
      | none => simp [scanLoop, hd]
      | some body => simpa [scanLoop, hd] using ih h

theorem scanLoop_sent_eq (mb : Mailbox) (ids : List Nat) :
    (scanLoop mb ids).sent =
      (ids.takeWhile fun i => (dictLookup (mb.fetchParts i) "text/plain").isSome).filterMap
        fun i => dictLookup (mb.fetchParts i) "text/plain" := by
  induction ids with
  | nil => simp [scanLoop]
  | cons a rest ih =>
    cases hd : dictLookup (mb.fetchParts a) "text/plain" with
    | none => simp [scanLoop, hd, List.takeWhile_cons]
    | some body => simp [scanLoop, hd, List.takeWhile_cons, ih]

theorem scanLoop_exn_none (mb : Mailbox) (ids : List Nat)
    (h : ∀ i ∈ ids, (dictLookup (mb.fetchParts i) "text/plain").isSome) :
    (scanLoop mb ids).exn = none := by
  induction ids with
  | nil => simp [scanLoop]
  | cons a rest ih =>
    cases hd : dictLookup (mb.fetchParts a) "text/plain" with
    | none =>
      have := h a (List.mem_cons_self a rest)
      rw [hd] at this
      cases this
    | some body =>
      simpa [scanLoop, hd] using ih fun i hi => h i (List.mem_cons_of_mem a hi)

theorem scanLoop_sent_from_parts (mb : Mailbox) (ids : List Nat) :
    ∀ s ∈ (scanLoop mb ids).sent,
      ∃ i ∈ ids, dictLookup (mb.fetchParts i) "text/plain" = some s := by
  induction ids with
  | nil => simp [scanLoop]
  | cons a rest ih =>
    cases hd : dictLookup (mb.fetchParts a) "text/plain" with
    | none => simp [scanLoop, hd]
    | some body =>
      intro s hs
      rw [scanLoop] at hs
      simp only [hd] at hs
      rcases List.mem_cons.mp hs with h | h
      · exact ⟨a, List.mem_cons_self a rest, by rw [hd, h]⟩
      · rcases ih s h with ⟨i, hi, hv⟩
        exact ⟨i, List.mem_cons_of_mem a hi, hv⟩

theorem scanLoop_status_irrel (s : String) (ids0 : List Nat) (fs fs' : Nat → String)
    (fp : Nat → List (String × String)) (ids : List Nat) :
    scanLoop ⟨s, ids0, fs, fp⟩ ids = scanLoop ⟨s, ids0, fs', fp⟩ ids := by
  induction ids with
  | nil => rfl
  | cons a rest ih =>
    cases hd : dictLookup (fp a) "text/plain" with
    | none => simp [scanLoop, hd]
    | some body => simp [scanLoop, hd, ih]

/-! ## Claim theorems -/

/-- Claim C2: after a successful open, whether the cycle body returns
normally or raises, close and logout are both attempted unconditionally in
that order, close is attempted exactly once, the exception the wrapper
propagates never depends on what close raised (close failure is
suppressed), and logout always runs (its exception, if any, is what
escapes; otherwise the body's). -/
theorem imap_trace_close_then_logout (funcExn closeExn closeExn' logoutExn : Option String) :
    (imap_trace none funcExn closeExn logoutExn).1 =
        [IEv.ev_open, IEv.ev_func, IEv.ev_close, IEv.ev_logout]
      ∧ (imap_trace none funcExn closeExn logoutExn).1.count IEv.ev_close = 1
      ∧ imap_trace none funcExn closeExn logoutExn =
          imap_trace none funcExn closeExn' logoutExn
      ∧ (imap_trace none funcExn closeExn none).2 = funcExn
      ∧ (∀ e, (imap_trace none funcExn closeExn (some e)).2 = some e) := by
  refine ⟨rfl, rfl, rfl, rfl, fun e => rfl⟩

/-- Claim C3: with a successful search returning ids `[1, 2, 3]` where
message 2 has no `text/plain` part, the scan forwards message 1's body,
raises `KeyError` at message 2 and never fetches message 3; in general any
id in the unseen set without a `text/plain` part leaves the cycle with an
unrecovered exception. -/
theorem scan_email_aborts_on_missing_body (mb : Mailbox) (b : String)
    (hstatus : mb.searchStatus = "OK")
    (hids : mb.searchIds = [1, 2, 3])
    (h1 : dictLookup (mb.fetchParts 1) "text/plain" = some b)
    (h2 : dictLookup (mb.fetchParts 2) "text/plain" = none) :
    (scan_email mb).sent = [b]
      ∧ (scan_email mb).exn = some "KeyError: text/plain"
      ∧ (scan_email mb).fetched = [1, 2]
      ∧ 3 ∉ (scan_email mb).fetched
      ∧ (∀ mb2 : Mailbox, mb2.searchStatus = "OK" →
          ∀ i ∈ mb2.searchIds, dictLookup (mb2.fetchParts i) "text/plain" = none →
            (scan_email mb2).exn.isSome) := by
  refine ⟨?_, ?_, ?_, ?_, ?_⟩
  · simp [scan_email, hstatus, hids, scanLoop, h1, h2]
  · simp [scan_email, hstatus, hids, scanLoop, h1, h2]
  · simp [scan_email, hstatus, hids, scanLoop, h1, h2]
  · simp [scan_email, hstatus, hids, scanLoop, h1, h2]
  · intro mb2 hst i hi hm
    simp only [scan_email, hst, beq_self_eq_true, if_true]
    exact scanLoop_missing_isSome mb2 mb2.searchIds i hi hm

/-- Claim C3 witness at a concrete mailbox with unseen ids `[1, 2, 3]`
where message 2 has only a `text/html` part. -/
theorem scan_email_aborts_on_missing_body_witness :
    (scan_email mbC3).sent = ["hello"]
      ∧ (scan_email mbC3).exn = some "KeyError: text/plain"
      ∧ (scan_email mbC3).fetched = [1, 2]
      ∧ 3 ∉ (scan_email mbC3).fetched :=
  have h := scan_email_aborts_on_missing_body mbC3 "hello" rfl rfl rfl rfl
  ⟨h.1, h.2.1, h.2.2.1, h.2.2.2.1⟩

/-- Claim C5: a non-success search status makes the scan forward the raw
status string itself as the only chat message, with no id fetched and no
exception raised. -/
theorem scan_email_search_failure (mb : Mailbox) (h : mb.searchStatus ≠ "OK") :
    scan_email mb = ⟨[], [mb.searchStatus], none⟩ := by
  simp [scan_email, h]

/-- Claim C5 witness at a concrete failing search. -/
theorem scan_email_search_failure_witness :
    scan_email mbC5 = ⟨[], ["NO [AUTH] failure"], none⟩ :=
  scan_email_search_failure mbC5 (by decide)

/-- Claim C7: on a successful search, what is sent is exactly the
`text/plain` body of each id of the longest prefix of the id sequence whose
members all parse, in the transport's order — so sends happen one by one as
extraction progresses, and when every id has a `text/plain` part the whole
sequence is forwarded in order and no exception escapes. -/
theorem scan_email_in_order (mb : Mailbox) (h : mb.searchStatus = "OK") :
    (scan_email mb).sent =
        ((mb.searchIds.takeWhile fun i =>
            (dictLookup (mb.fetchParts i) "text/plain").isSome).filterMap
          fun i => dictLookup (mb.fetchParts i) "text/plain")
      ∧ ((∀ i ∈ mb.searchIds, (dictLookup (mb.fetchParts i) "text/plain").isSome) →
          (scan_email mb).sent =
              (mb.searchIds.filterMap fun i => dictLookup (mb.fetchParts i) "text/plain")
            ∧ (scan_email mb).exn = none) := by
  constructor
  · simp only [scan_email, h, beq_self_eq_true, if_true]
    exact scanLoop_sent_eq mb mb.searchIds
  · intro hall
    simp only [scan_email, h, beq_self_eq_true, if_true]
    refine ⟨?_, scanLoop_exn_none mb mb.searchIds hall⟩
    rw [scanLoop_sent_eq mb mb.searchIds, List.takeWhile_eq_self_iff.mpr hall]

/-- Claim C7 witness: two well-formed messages are forwarded in id order. -/
theorem scan_email_in_order_witness :
    (scan_email mbC7).sent = ["1", "2"] ∧ (scan_email mbC7).exn = none :=
  ((scan_email_in_order mbC7 rfl).2 (by decide))

/-- Claim C9: a message whose MIME walk has several `text/plain` parts
(two or more) is forwarded as exactly one chat message whose text is the
payload of the last such part — later parts overwrite earlier ones in the
content-type dictionary. -/
theorem scan_email_last_plain_wins (mb : Mailbox) (i : Nat)
    (ps : List (String × String)) (plast : String × String)
    (hfilter : (mb.fetchParts i).filter (fun p => p.1 == "text/plain") = ps ++ [plast])
    (htwo : ps ≠ [])
    (hstatus : mb.searchStatus = "OK")
    (hids : mb.searchIds = [i]) :
    (scan_email mb).sent = [plast.2] ∧ (scan_email mb).exn = none := by
  have hd : dictLookup (mb.fetchParts i) "text/plain" = some plast.2 := by
    rw [dictLookup, hfilter, List.getLast?_concat]
    rfl
  constructor
  · simp [scan_email, hstatus, hids, scanLoop, hd]
  · simp [scan_email, hstatus, hids, scanLoop, hd]

/-- Claim C9 witness: a message with two `text/plain` parts forwards only
the second payload. -/
theorem scan_email_last_plain_wins_witness :
    (scan_email mbC9).sent = ["second"] ∧ (scan_email mbC9).exn = none :=
  scan_email_last_plain_wins mbC9 4 [("text/plain", "first")] ("text/plain", "second")
    (by decide) (by decide) rfl rfl

/-- Claim C10: the per-message fetch status is never consulted — two
transports agreeing on everything except the fetch status produce identical
scans — and on a successful search every chat message sent is the
`text/plain` payload of some id in the unseen set, so a failing fetch
status never yields a diagnostic message. -/
theorem scan_email_ignores_fetch_status (mb mb2 : Mailbox)
    (h1 : mb.searchStatus = mb2.searchStatus)
    (h2 : mb.searchIds = mb2.searchIds)
    (h3 : mb.fetchParts = mb2.fetchParts) :
    scan_email mb = scan_email mb2
      ∧ (mb.searchStatus = "OK" →
          ∀ s ∈ (scan_email mb).sent,
            ∃ i ∈ mb.searchIds, dictLookup (mb.fetchParts i) "text/plain" = some s) := by
  constructor
  · obtain ⟨s, ids, fs, fp⟩ := mb
    obtain ⟨s', ids', fs', fp'⟩ := mb2
    simp only at h1 h2 h3
    subst h1; subst h2; subst h3
    rw [scan_email, scan_email]
    by_cases h : s = "OK"
    · simp only [h, beq_self_eq_true, if_true]
      exact scanLoop_status_irrel "OK" ids fs fs' fp ids
    · simp [h]
  · intro hst s hs
    simp only [scan_email, hst, beq_self_eq_true, if_true] at hs
    exact scanLoop_sent_from_parts mb mb.searchIds s hs

/-- Claim C10 witness: a transport whose fetch reports success and one
whose fetch reports failure give the same scan outcome. -/
theorem scan_email_ignores_fetch_status_witness :
    scan_email mbC10a = scan_email mbC10b
      ∧ mbC10a.fetchStatus 1 = "OK" ∧ mbC10b.fetchStatus 1 = "NO parse error"
      ∧ (scan_email mbC10b).sent = ["body"] :=
  ⟨(scan_email_ignores_fetch_status mbC10a mbC10b rfl rfl rfl).1, rfl, rfl, by decide⟩

/-! ## Helper lemmas about the job queue -/

theorem filter_not_of_filter_nil (q : List Job) (k : String)
    (h : q.filter (fun j => j.name == k) = []) :
    q.filter (fun j => !(j.name == k)) = q := by
  apply List.filter_eq_self.mpr
  intro j hj
  have := List.filter_eq_nil_iff.mp h j hj
  simp only [Bool.not_eq_true] at this
  simp [this]

theorem set_timer_queue_eq (c : Int) (a : String) (rest : List String)
    (q : List Job) (n : Int) (hn : pyInt a = some n) (h0 : 0 ≤ n) :
    (set_timer c (a :: rest) q).queue =
      q.filter (fun j => !(j.name == toString c)) ++ [⟨toString c, n, c⟩] := by
  rw [set_timer]
  simp only [hn, not_lt.mpr h0, if_false, remove_job_if_exists, get_jobs_by_name]
  by_cases h : q.filter (fun j => j.name == toString c) = []
  · simp only [h, List.isEmpty_nil, if_true]
    rw [filter_not_of_filter_nil q (toString c) h]
  · rw [if_neg]
    simp only [List.isEmpty_iff]
    exact h

theorem filter_beq_of_filter_not (q : List Job) (k : String) :
    (q.filter (fun j => !(j.name == k))).filter (fun j => j.name == k) = [] := by
  rw [List.filter_filter]
  have h : ∀ j ∈ q, ((j.name == k) && !(j.name == k)) = (fun _ => false) j := by
    intro j _
    exact Bool.and_not_self _
  rw [List.filter_congr h, List.filter_false]

theorem filter_not_idem (q : List Job) (k : String) :
    (q.filter (fun j => !(j.name == k))).filter (fun j => !(j.name == k)) =
      q.filter (fun j => !(j.name == k)) := by
  rw [List.filter_filter]
  have h : ∀ j ∈ q, (!(j.name == k) && !(j.name == k)) = !(j.name == k) := by
    intro j _
    exact Bool.and_self _
  exact List.filter_congr h

theorem unset_no_entry (c : Int) (q : List Job)
    (h : q.filter (fun j => j.name == toString c) = []) :
    unset c q = ⟨"You have no active timer.", q⟩ := by
  simp [unset, remove_job_if_exists, get_jobs_by_name, h]

theorem unset_with_entry (c : Int) (q : List Job)
    (h : q.filter (fun j => j.name == toString c) ≠ []) :
    unset c q =
      ⟨"Timer successfully cancelled!", q.filter (fun j => !(j.name == toString c))⟩ := by
  have hbool : (q.filter (fun j => j.name == toString c)).isEmpty = false := by
    simp only [List.isEmpty_eq_false]
    exact h
  simp [unset, remove_job_if_exists, get_jobs_by_name, hbool]

/-- Claim C1: a successful `set` (non-negative parsed interval) leaves
exactly one job named after the chat key — the fresh one — and leaves the
jobs of every other key untouched, so at most one job per key is preserved
by the operation. -/
theorem set_timer_one_entry_per_key (c : Int) (a : String) (rest : List String)
    (q : List Job) (n : Int) (hn : pyInt a = some n) (h0 : 0 ≤ n) :
    (set_timer c (a :: rest) q).queue.filter (fun j => j.name == toString c) =
        [⟨toString c, n, c⟩]
      ∧ ∀ k : String, k ≠ toString c →
          (set_timer c (a :: rest) q).queue.filter (fun j => j.name == k) =
            q.filter (fun j => j.name == k) := by
  rw [set_timer_queue_eq c a rest q n hn h0]
  constructor
  · rw [List.filter_append, filter_beq_of_filter_not]
    simp
  · intro k hk
    rw [List.filter_append, List.filter_filter]
    have h1 : [(⟨toString c, n, c⟩ : Job)].filter (fun j => j.name == k) = [] := by
      simp [beq_eq_false_iff_ne.mpr (fun hc => hk hc.symm)]
    have h2 : ∀ j ∈ q, ((j.name == k) && !(j.name == toString c)) = (j.name == k) := by
      intro j _
      cases hjk : (j.name == k) with
      | false => simp
      | true =>
        have : j.name = k := eq_of_beq hjk
        simp [beq_eq_false_iff_ne.mpr (this ▸ hk : j.name ≠ toString c)]
    rw [h1, List.filter_congr h2, List.append_nil]

/-- Claim C1 witness: setting a 5-second timer for chat 7 over a queue
that already holds a job for chat 7 and one for chat 9. -/
theorem set_timer_one_entry_per_key_witness :
    (set_timer 7 ["5"] [jobOld, jobOther]).queue.filter (fun j => j.name == "7") =
        [⟨"7", 5, 7⟩]
      ∧ (set_timer 7 ["5"] [jobOld, jobOther]).queue.filter (fun j => j.name == "9") =
          [jobOld, jobOther].filter (fun j => j.name == "9") :=
  ⟨(set_timer_one_entry_per_key 7 "5" [] [jobOld, jobOther] 5 (by decide) (by decide)).1,
    (set_timer_one_entry_per_key 7 "5" [] [jobOld, jobOther] 5 (by decide) (by decide)).2
      "9" (by decide)⟩

/-- Claim C4: `/set` with no argument or a non-numeric argument answers
with the usage line, `/set` with a negative interval answers with the
time-travel refusal, and in all three cases the job queue is returned
unchanged; `"abc"` is non-numeric and `"-1"` parses to the negative
`-1`. -/
theorem set_timer_rejects_bad_interval (c : Int) (q : List Job) :
    set_timer c [] q = ⟨"Usage: /set <seconds>", q⟩
      ∧ (∀ a rest, pyInt a = none →
          set_timer c (a :: rest) q = ⟨"Usage: /set <seconds>", q⟩)
      ∧ (∀ a rest n, pyInt a = some n → n < 0 →
          set_timer c (a :: rest) q = ⟨"Sorry we can not go back to future!", q⟩)
      ∧ pyInt "abc" = none ∧ pyInt "-1" = some (-1) := by
  refine ⟨rfl, ?_, ?_, by decide, by decide⟩
  · intro a rest h
    rw [set_timer]
    simp only [h]
  · intro a rest n h hneg
    rw [set_timer]
    simp only [h, if_pos hneg]

/-- Claim C4 witness: the three rejection cases at chat 7 over a singleton
queue, each leaving the queue as it was. -/
theorem set_timer_rejects_bad_interval_witness :
    set_timer 7 ["abc"] [jobOld] = ⟨"Usage: /set <seconds>", [jobOld]⟩
      ∧ set_timer 7 ["-1"] [jobOld] = ⟨"Sorry we can not go back to future!", [jobOld]⟩
      ∧ set_timer 7 [] [jobOld] = ⟨"Usage: /set <seconds>", [jobOld]⟩ :=
  ⟨(set_timer_rejects_bad_interval 7 [jobOld]).2.1 "abc" [] (by decide),
    (set_timer_rejects_bad_interval 7 [jobOld]).2.2.1 "-1" [] (-1) (by decide) (by decide),
    (set_timer_rejects_bad_interval 7 [jobOld]).1⟩

/-- Claim C6: after a successful `set` for a chat key, `unset` answers
"Timer successfully cancelled!" and leaves no job for that key, and a
second `unset` answers "You have no active timer." while changing
nothing. -/
theorem set_then_unset_then_unset (c : Int) (a : String) (rest : List String)
    (q : List Job) (n : Int) (hn : pyInt a = some n) (h0 : 0 ≤ n) :
    unset c (set_timer c (a :: rest) q).queue =
        ⟨"Timer successfully cancelled!", q.filter (fun j => !(j.name == toString c))⟩
      ∧ (unset c (set_timer c (a :: rest) q).queue).queue.filter
          (fun j => j.name == toString c) = []
      ∧ unset c (unset c (set_timer c (a :: rest) q).queue).queue =
          ⟨"You have no active timer.",
            (unset c (set_timer c (a :: rest) q).queue).queue⟩ := by
  rw [set_timer_queue_eq c a rest q n hn h0]
  have hne : ((q.filter (fun j => !(j.name == toString c)) ++
      [(⟨toString c, n, c⟩ : Job)]).filter (fun j => j.name == toString c)) =
        [⟨toString c, n, c⟩] := by
    rw [List.filter_append, filter_beq_of_filter_not]
    simp
  have hq1 : unset c (q.filter (fun j => !(j.name == toString c)) ++
      [(⟨toString c, n, c⟩ : Job)]) =
        ⟨"Timer successfully cancelled!", q.filter (fun j => !(j.name == toString c))⟩ := by
    rw [unset_with_entry]
    · rw [List.filter_append, filter_not_idem]
      simp
    · rw [hne]
      simp
  refine ⟨hq1, ?_, ?_⟩
  · rw [hq1, filter_beq_of_filter_not]
  · rw [hq1]
    exact unset_no_entry c _ (filter_beq_of_filter_not q (toString c))

/-- Claim C6 witness: set a 0-second timer for chat 7, unset it, unset
again. -/
theorem set_then_unset_then_unset_witness :
    unset 7 (set_timer 7 ["0"] []).queue = ⟨"Timer successfully cancelled!", []⟩
      ∧ unset 7 (unset 7 (set_timer 7 ["0"] []).queue).queue =
          ⟨"You have no active timer.", (unset 7 (set_timer 7 ["0"] []).queue).queue⟩ :=
  ⟨(set_then_unset_then_unset 7 "0" [] [] 0 (by decide) (by decide)).1,
    (set_then_unset_then_unset 7 "0" [] [] 0 (by decide) (by decide)).2.2⟩

/-! ## Helper lemmas about the folder prompt -/

theorem folderLoop_printed (decode : String → String) (folders : List String) :
    ∀ num : Nat, (∀ f ∈ folders, ((splitFolderLine f.toList).get? 1).isSome) →
      (folderLoop decode num folders).1 =
        List.zipWith (fun k f => toString k ++ ". " ++ decode f)
          (List.range' num folders.length) folders := by
  induction folders with
  | nil => intro num _; simp [folderLoop]
  | cons f rest ih =>
    intro num hwf
    obtain ⟨name, hname⟩ :=
      Option.isSome_iff_exists.mp (hwf f (List.mem_cons_self f rest))
    rw [folderLoop]
    simp only [hname]
    rw [List.length_cons, List.range'_succ, List.zipWith_cons_cons,
      ih (num + 1) (fun g hg => hwf g (List.mem_cons_of_mem f hg))]

theorem folderLoop_enum_ok (decode : String → String) (folders : List String) :
    ∀ num : Nat, (∀ f ∈ folders, ((splitFolderLine f.toList).get? 1).isSome) →
      ∃ enum, (folderLoop decode num folders).2 = Except.ok enum
        ∧ ∀ n : Int, (n < (num : Int) ∨ (num : Int) + folders.length ≤ n) →
            enum.lookup n = none := by
  induction folders with
  | nil =>
    intro num _
    exact ⟨[], rfl, fun n _ => rfl⟩
  | cons f rest ih =>
    intro num hwf
    obtain ⟨name, hname⟩ :=
      Option.isSome_iff_exists.mp (hwf f (List.mem_cons_self f rest))
    obtain ⟨enum, henum, hlk⟩ :=
      ih (num + 1) (fun g hg => hwf g (List.mem_cons_of_mem f hg))
    refine ⟨((num : Int), String.mk name) :: enum, ?_, ?_⟩
    · rw [folderLoop]
      simp only [hname, henum, Except.map]
    · intro n hn
      have hne : (n == (num : Int)) = false := by
        apply beq_eq_false_iff_ne.mpr
        intro hc
        subst hc
        rcases hn with h | h
        · exact absurd h (lt_irrefl _)
        · have : (0 : Int) ≤ (rest.length : Int) := Int.ofNat_nonneg rest.length
          simp only [List.length_cons] at h
          omega
      rw [List.lookup, hne]
      apply hlk
      rcases hn with h | h
      · exact Or.inl (by omega)
      · right
        simp only [List.length_cons] at h
        push_cast at h ⊢
        omega

/-- Claim C8 (amended): with `--folder` omitted and a successful folder
listing, the prompt prints the folders decoded and numbered from 1; an
integer selection outside the listed numbers falls back to `"INBOX"`; but a
non-numeric selection raises an uncaught `ValueError` instead of
defaulting. -/
theorem select_email_folder_fallback (decode : String → String)
    (folders : List String) (inp : String)
    (hwf : ∀ f ∈ folders, ((splitFolderLine f.toList).get? 1).isSome) :
    (select_email_folder decode "OK" folders inp).printed =
        List.zipWith (fun k f => toString k ++ ". " ++ decode f)
          (List.range' 1 folders.length) folders
      ∧ (pyInt inp = none →
          (select_email_folder decode "OK" folders inp).folder =
            Except.error "ValueError")
      ∧ (∀ n : Int, pyInt inp = some n → (n < 1 ∨ (folders.length : Int) < n) →
          (select_email_folder decode "OK" folders inp).folder =
            Except.ok "INBOX") := by
  obtain ⟨enum, henum, hlk⟩ := folderLoop_enum_ok decode folders 1 hwf
  refine ⟨?_, ?_, ?_⟩
  · rw [select_email_folder]
    simp only [beq_self_eq_true, if_true, henum]
    cases hp : pyInt inp with
    | none => exact folderLoop_printed decode folders 1 hwf
    | some n => exact folderLoop_printed decode folders 1 hwf
  · intro hp
    rw [select_email_folder]
    simp only [beq_self_eq_true, if_true, henum, hp]
  · intro n hp hrange
    rw [select_email_folder]
    simp only [beq_self_eq_true, if_true, henum, hp]
    have : enum.lookup n = none := by
      apply hlk
      rcases hrange with h | h
      · exact Or.inl h
      · exact Or.inr (by omega)
    rw [this]
    rfl

/-- Claim C8 counterexample: the claim says every invalid input defaults the
selection to `"INBOX"`, but the non-numeric input `"abc"` makes
`int(input(...))` raise an uncaught `ValueError` and no folder is
selected. -/
theorem select_email_folder_nonnumeric_raises :
    (select_email_folder (fun s => s) "OK" ["(\\X) \"/\" \"Work\""] "abc").folder ≠
        Except.ok "INBOX"
      ∧ (select_email_folder (fun s => s) "OK" ["(\\X) \"/\" \"Work\""] "abc").folder =
          Except.error "ValueError" := by
  refine ⟨?_, by decide⟩
  intro h
  cases h

/-- Claim C8 witness: one listed folder, printed as `1. ...`; the
out-of-range numeric selection `"5"` falls back to `"INBOX"`, and the
non-numeric selection `"abc"` errors. -/
theorem select_email_folder_fallback_witness :
    (select_email_folder (fun s => s) "OK" ["(\\X) \"/\" \"Work\""] "5").printed =
        ["1. (\\X) \"/\" \"Work\""]
      ∧ (select_email_folder (fun s => s) "OK" ["(\\X) \"/\" \"Work\""] "5").folder =
          Except.ok "INBOX"
      ∧ (select_email_folder (fun s => s) "OK" ["(\\X) \"/\" \"Work\""] "abc").folder =
          Except.error "ValueError" :=
  ⟨(select_email_folder_fallback (fun s => s) ["(\\X) \"/\" \"Work\""] "5"
      (by decide)).1,
    (select_email_folder_fallback (fun s => s) ["(\\X) \"/\" \"Work\""] "5"
      (by decide)).2.2 5 (by decide) (by decide),
    (select_email_folder_fallback (fun s => s) ["(\\X) \"/\" \"Work\""] "abc"
      (by decide)).2.1 (by decide)⟩

end MailboxPoll

